import Mathlib

/-!
Shallow embedding of `src/starfish/pipeline/registration/__init__.py`
(the `Registration` pipeline component: algorithm discovery, CLI
construction via `add_to_parser`, and the `_cli` dispatcher).

Collaborators that live outside `src/` (`PipelineComponent`,
`FsExistsType`, `RegistrationAlgorithmBase`, the `Stack` container) are
modelled from the specification where noted by a doc comment starting
with `Modelled from the spec:`.
-/

namespace Starfish

/-- A Python class as far as the discovery and CLI-building code observes
it: its own name, the names of its direct base classes (`__bases__`), its
`get_algorithm_name()` result and the set of flags its `add_arguments`
registers on a parser. -/
structure PyClass where
  class_name : String
  bases : List String
  algorithm_name : String
  arg_flags : List String
deriving DecidableEq, Repr

/-- The name of the capability base class in
`starfish/pipeline/registration/_base.py`. -/
def registrationAlgorithmBaseName : String := "RegistrationAlgorithmBase"

/-- `Registration.implementing_algorithms`: the source returns
`RegistrationAlgorithmBase.__subclasses__()`, which in Python is the list
of classes whose `__bases__` contain `RegistrationAlgorithmBase`
directly. -/
def implementing_algorithms (classes : List PyClass) : List PyClass :=
  classes.filter (fun c => registrationAlgorithmBaseName ∈ c.bases)

/-- The list of direct base-class names of the class called `n` in the
class table (empty when `n` is absent). -/
def basesOf (classes : List PyClass) (n : String) : List String :=
  match classes.find? (fun c => c.class_name = n) with
  | some c => c.bases
  | none => []

/-- `Descends classes a b`: class `a` derives from class `b`, directly or
through any chain of intermediate classes (the transitive "is a subtype
of" relation of the class table). -/
inductive Descends (classes : List PyClass) : String → String → Prop
  | base {a b : String} : b ∈ basesOf classes a → Descends classes a b
  | step {a b c : String} :
      b ∈ basesOf classes a → Descends classes b c → Descends classes a c

/-- Modelled from the spec: `PipelineComponent._ensure_algorithms_setup`
(not under `src/`): the registry is populated exactly once; a repeated
call is a no-op beyond the first successful population. -/
structure RegistryState where
  algorithms_populated : Bool
  algorithms : List PyClass
deriving DecidableEq, Repr

/-- Modelled from the spec: the once-only population step invoked at the
bottom of the module (`Registration._ensure_algorithms_setup()`): if the
registry is already populated it is left untouched, otherwise it is
filled with the discovered implementing algorithms. -/
def ensure_algorithms_setup (classes : List PyClass) (st : RegistryState) :
    RegistryState :=
  if st.algorithms_populated then st
  else { algorithms_populated := true,
         algorithms := implementing_algorithms classes }

/-- The name-to-subtype view of a populated registry, keyed by each
class's `get_algorithm_name()`. -/
def registry_map (st : RegistryState) : List (String × PyClass) :=
  st.algorithms.map (fun c => (c.algorithm_name, c))

/-- Modelled from the spec: `PipelineComponent.algorithm_to_class_map`
(not under `src/`): derived from the discovered algorithms, keyed by each
subtype's name; building the map fails loudly when two subtypes report
the same name, rather than silently keeping one. -/
def algorithm_to_class_map (classes : List PyClass) :
    Except String (List (String × PyClass)) :=
  if ((implementing_algorithms classes).map
      (fun c => c.algorithm_name)).Nodup then
    Except.ok ((implementing_algorithms classes).map
      (fun c => (c.algorithm_name, c)))
  else
    Except.error "duplicate algorithm name in registry"

/-- One `add_argument` call on the `register` group: the option strings,
whether argparse treats the option as required, and whether its `type=`
converter is `FsExistsType()` (parse-time existence validation). -/
structure ArgumentSpec where
  flags : List String
  required : Bool
  type_fs_exists : Bool
deriving DecidableEq, Repr

/-- One algorithm subcommand of the `register` group: its token, the
class stored by `set_defaults(registration_algorithm_class=...)`, and the
flags that the class's `add_arguments` declared on this subcommand's own
parser. -/
structure Subcommand where
  token : String
  registration_algorithm_class : PyClass
  declared_flags : List String
deriving DecidableEq, Repr

/-- The `register` parser group built by `Registration.add_to_parser`:
its two path options, the fact that `set_defaults` stored
`Registration._cli` as `starfish_command`, and the per-algorithm
subcommands. -/
structure RegisterGroup where
  arguments : List ArgumentSpec
  starfish_command_is_cli : Bool
  subcommands : List Subcommand
deriving DecidableEq, Repr

/-- `Registration.add_to_parser`, applied to the values of the
name-to-class map: adds the required `--input` (`-i`) and `--output`
(`-o`) options with `FsExistsType()` converters, sets `starfish_command` to
`Registration._cli`, and for every algorithm class adds one subcommand
named `get_algorithm_name()`, stores the class as the default of
`registration_algorithm_class`, and lets the class declare its arguments
on that subcommand's own parser. -/
def addToParser (class_map : List (String × PyClass)) : RegisterGroup :=
  { arguments :=
      [{ flags := ["-i", "--input"], required := true, type_fs_exists := true },
       { flags := ["-o", "--output"], required := true, type_fs_exists := true }],
    starfish_command_is_cli := true,
    subcommands := class_map.map (fun p =>
      { token := p.2.algorithm_name,
        registration_algorithm_class := p.2,
        declared_flags := p.2.arg_flags }) }

/-- Modelled from the spec: a configured, ready-to-run algorithm instance
(`RegistrationAlgorithmBase` lives outside `src/`). Its `register` method
receives the loaded container; a Python method may both mutate its
argument in place and return a value, so the effect is modelled as a pair
`(post-state of the passed container, returned value)`, or an
algorithm-specific failure. The container type `C` is opaque to the
dispatcher. -/
structure AlgInstance (C : Type) where
  register : C → Except String (C × C)

/-- Modelled from the spec: the class-level surface of an algorithm
subtype that `_cli` uses: `from_cli_args` builds an instance from the
algorithm-specific parsed values and may fail with a construction
error. -/
structure AlgorithmClass (C : Type) where
  from_cli_args : List (String × String) → Except String (AlgInstance C)

/-- The parsed-argument record as `_cli` reads it: the
`registration_algorithm_class` discriminator (absent when no subcommand
was selected), the validated input and output paths, and the
algorithm-specific parsed values consumed by `from_cli_args`. -/
structure CliArgs (C : Type) where
  registration_algorithm_class : Option (AlgorithmClass C)
  input : String
  output : String
  alg_args : List (String × String)

/-- Modelled from the spec: the external `Stack` container's I/O
(`starfish.io.Stack`, outside `src/`): `read` loads a container from a
path, `write` persists one; either may fail with an I/O error. -/
structure Env (C : Type) where
  read : String → Except String C
  write : String → C → Except String Unit

/-- Observable steps of one dispatcher invocation, recorded in the order
they complete: instance construction, container load from a path, the
algorithm's `register` run, the persist of a container value to a path,
and the help-text print of the usage-error branch. -/
inductive Event (C : Type) where
  | constructed
  | loaded (path : String)
  | executed
  | persisted (path : String) (value : C)
  | help_printed
deriving DecidableEq, Repr

/-- How one dispatcher invocation terminates. `done` is the normal
fall-through return of `_cli`, which the process reports as exit status
0; `exited s` is `parser.exit(status=s)`; `attributeError` is the
`AttributeError` raised when `Registration.register_group` was never
assigned; `raised e` is any other exception propagating out unmodified;
`parseError e` is an argparse parse-time rejection (before `_cli`
runs). -/
inductive CliResult (C : Type) where
  | done
  | exited (status : Nat)
  | attributeError
  | raised (msg : String)
  | parseError (msg : String)
deriving DecidableEq, Repr

/-- The help-and-exit branch of `_cli`: it reads the class attribute
`cls.register_group`, which `add_to_parser` assigns at its end; when the
attribute was never assigned, the read raises `AttributeError` before
any help is printed, otherwise `print_help()` runs and
`exit(status=2)` terminates the command. -/
def help_exit {C : Type} (register_group : Option RegisterGroup) :
    List (Event C) × CliResult C :=
  match register_group with
  | none => ([], CliResult.attributeError)
  | some _ => ([Event.help_printed], CliResult.exited 2)

/-- `Registration._cli`: if no algorithm discriminator is set or
`print_help` was requested, print help and exit with status 2; otherwise
construct the instance via `from_cli_args`, load the `Stack` from
`args.input`, run `instance.register` on it (the return value is bound
nowhere in the source and is discarded), and write the container to
`args.output`. Each step's failure propagates at once; the completed
steps are recorded as events. The stdout banner `Registering ...` is not
modelled. -/
def _cli {C : Type} (register_group : Option RegisterGroup)
    (env : Env C) (args : CliArgs C) (print_help : Bool) :
    List (Event C) × CliResult C :=
  match args.registration_algorithm_class with
  | none => help_exit register_group
  | some c =>
    if print_help then help_exit register_group
    else
      match c.from_cli_args args.alg_args with
      | Except.error e => ([], CliResult.raised e)
      | Except.ok inst =>
        match env.read args.input with
        | Except.error e => ([Event.constructed], CliResult.raised e)
        | Except.ok s =>
          match inst.register s with
          | Except.error e =>
              ([Event.constructed, Event.loaded args.input],
               CliResult.raised e)
          | Except.ok (s2, _ret) =>
            match env.write args.output s2 with
            | Except.error e =>
                ([Event.constructed, Event.loaded args.input,
                  Event.executed],
                 CliResult.raised e)
            | Except.ok _ =>
                ([Event.constructed, Event.loaded args.input,
                  Event.executed, Event.persisted args.output s2],
                 CliResult.done)

/-- Modelled from the spec: `FsExistsType` (in `starfish.util.argparse`,
outside `src/`): an argparse `type=` converter that accepts a value only
when it names an existing filesystem location, so a missing path is
rejected at parse time. -/
def FsExistsType (path_exists : String → Bool) (value : String) :
    Except String String :=
  if path_exists value then Except.ok value
  else Except.error (value ++ " is not a valid path")

/-- The raw command line as argparse sees the two path options before
validation: each is absent or a string value. -/
structure RawArgs where
  input : Option String
  output : Option String
deriving DecidableEq, Repr

/-- Modelled from the spec: argparse's handling of the two `required=True`
options registered by `add_to_parser` with `FsExistsType()` converters: a
missing option or a converter rejection fails the parse, in option
order. -/
def parse_io_arguments (path_exists : String → Bool) (raw : RawArgs) :
    Except String (String × String) :=
  match raw.input with
  | none => Except.error "the following arguments are required: -i/--input"
  | some i =>
    match FsExistsType path_exists i with
    | Except.error e => Except.error e
    | Except.ok i2 =>
      match raw.output with
      | none =>
          Except.error "the following arguments are required: -o/--output"
      | some o =>
        match FsExistsType path_exists o with
        | Except.error e => Except.error e
        | Except.ok o2 => Except.ok (i2, o2)

/-- One whole invocation of the `register` command: argparse first parses
and validates the two path options; only when parsing succeeds does the
`starfish_command` entry point `_cli` run, on the validated paths. -/
def invoke {C : Type} (path_exists : String → Bool)
    (register_group : Option RegisterGroup) (env : Env C) (raw : RawArgs)
    (sel : Option (AlgorithmClass C)) (alg_args : List (String × String))
    (print_help : Bool) : List (Event C) × CliResult C :=
  match parse_io_arguments path_exists raw with
  | Except.error e => ([], CliResult.parseError e)
  | Except.ok (i, o) =>
      _cli register_group env
        { registration_algorithm_class := sel, input := i, output := o,
          alg_args := alg_args } print_help

/-- The dispatcher's success path, shared shape: with an algorithm
selected, no help forced, and every step succeeding, `_cli` performs
construction, load, execution and persist in that order and returns
normally. -/
lemma cli_run_success {C : Type} (rg : RegisterGroup) (env : Env C)
    (args : CliArgs C) (c : AlgorithmClass C) (inst : AlgInstance C)
    (s s2 ret : C)
    (hsel : args.registration_algorithm_class = some c)
    (hcons : c.from_cli_args args.alg_args = Except.ok inst)
    (hload : env.read args.input = Except.ok s)
    (hrun : inst.register s = Except.ok (s2, ret))
    (hwrite : env.write args.output s2 = Except.ok ()) :
    _cli (some rg) env args false =
      ([Event.constructed, Event.loaded args.input, Event.executed,
        Event.persisted args.output s2], CliResult.done) := by
  simp [_cli, hsel, hcons, hload, hrun, hwrite]

/-- C1: with an algorithm selected (discriminator set, no forced help)
and every step succeeding, the dispatcher performs exactly construct,
then load from the input path, then run on the loaded container, then
persist to the output path, in that order, and terminates normally
(process exit status 0). -/
theorem C1_selected_dispatch_sequence {C : Type} (rg : RegisterGroup)
    (env : Env C) (args : CliArgs C) (c : AlgorithmClass C)
    (inst : AlgInstance C) (s s2 ret : C)
    (hsel : args.registration_algorithm_class = some c)
    (hcons : c.from_cli_args args.alg_args = Except.ok inst)
    (hload : env.read args.input = Except.ok s)
    (hrun : inst.register s = Except.ok (s2, ret))
    (hwrite : env.write args.output s2 = Except.ok ()) :
    _cli (some rg) env args false =
      ([Event.constructed, Event.loaded args.input, Event.executed,
        Event.persisted args.output s2], CliResult.done) :=
  cli_run_success rg env args c inst s s2 ret hsel hcons hload hrun hwrite

/-- An I/O environment over `Nat` containers whose every read yields the
container `5` and whose every write succeeds. -/
def natEnv : Env Nat :=
  { read := fun _ => Except.ok 5, write := fun _ _ => Except.ok () }

/-- An algorithm class whose instances increment the container in place
and return the incremented container. -/
def okAlg : AlgorithmClass Nat :=
  { from_cli_args := fun _ =>
      Except.ok { register := fun s => Except.ok (s + 1, s + 1) } }

/-- Parsed arguments selecting `okAlg` with the happy-path tmp paths. -/
def okArgs : CliArgs Nat :=
  { registration_algorithm_class := some okAlg, input := "/tmp/in",
    output := "/tmp/out", alg_args := [] }

/-- A register group built over an empty class map. -/
def emptyGroup : RegisterGroup := addToParser []

/-- Witness for C1 at a concrete invocation: reading container `5`,
incrementing it, and persisting `6`. -/
theorem C1_selected_dispatch_sequence_witness :
    _cli (some emptyGroup) natEnv okArgs false =
      ([Event.constructed, Event.loaded "/tmp/in", Event.executed,
        Event.persisted "/tmp/out" 6], CliResult.done) :=
  C1_selected_dispatch_sequence emptyGroup natEnv okArgs okAlg
    { register := fun s => Except.ok (s + 1, s + 1) } 5 6 6
    rfl rfl rfl rfl rfl

/-- C2: with no algorithm discriminator set, or with help forced, the
dispatcher (with its register group assigned) prints the group's help
text and exits with status 2, and no construction, load, execution or
persist step occurs. -/
theorem C2_no_selection_prints_help_exits_2 {C : Type} (rg : RegisterGroup)
    (env : Env C) (args : CliArgs C) (print_help : Bool)
    (h : args.registration_algorithm_class = none ∨ print_help = true) :
    _cli (some rg) env args print_help =
      ([Event.help_printed], CliResult.exited 2) ∧
    Event.constructed ∉ (_cli (some rg) env args print_help).1 ∧
    (∀ p, Event.loaded p ∉ (_cli (some rg) env args print_help).1) ∧
    Event.executed ∉ (_cli (some rg) env args print_help).1 ∧
    (∀ p v, Event.persisted p v ∉ (_cli (some rg) env args print_help).1) := by
  have hmain : _cli (some rg) env args print_help =
      ([Event.help_printed], CliResult.exited 2) := by
    rcases h with h | h
    · simp [_cli, h, help_exit]
    · cases hsel : args.registration_algorithm_class with
      | none => simp [_cli, hsel, help_exit]
      | some c => simp [_cli, hsel, h, help_exit]
  refine ⟨hmain, ?_, ?_, ?_, ?_⟩ <;> simp [hmain]

/-- Parsed arguments with no algorithm subcommand selected. -/
def noSelArgs : CliArgs Nat :=
  { registration_algorithm_class := none, input := "/tmp/in",
    output := "/tmp/out", alg_args := [] }

/-- Witness for C2 at a concrete invocation with no selection. -/
theorem C2_no_selection_prints_help_exits_2_witness :
    _cli (some emptyGroup) natEnv noSelArgs false =
      ([Event.help_printed], CliResult.exited 2) :=
  (C2_no_selection_prints_help_exits_2 emptyGroup natEnv noSelArgs false
    (Or.inl rfl)).1

/-- C3: every failure of construction, load, execution or persist
propagates out of the dispatcher unmodified as the raised error, and the
recorded events show that no subsequent step of the sequence was
attempted (the trace stops at the last completed step). -/
theorem C3_failures_propagate_unmodified :
    (∀ (C : Type) (rg : RegisterGroup) (env : Env C) (args : CliArgs C)
        (c : AlgorithmClass C) (e : String),
      args.registration_algorithm_class = some c →
      c.from_cli_args args.alg_args = Except.error e →
      _cli (some rg) env args false = ([], CliResult.raised e)) ∧
    (∀ (C : Type) (rg : RegisterGroup) (env : Env C) (args : CliArgs C)
        (c : AlgorithmClass C) (inst : AlgInstance C) (e : String),
      args.registration_algorithm_class = some c →
      c.from_cli_args args.alg_args = Except.ok inst →
      env.read args.input = Except.error e →
      _cli (some rg) env args false =
        ([Event.constructed], CliResult.raised e)) ∧
    (∀ (C : Type) (rg : RegisterGroup) (env : Env C) (args : CliArgs C)
        (c : AlgorithmClass C) (inst : AlgInstance C) (s : C) (e : String),
      args.registration_algorithm_class = some c →
      c.from_cli_args args.alg_args = Except.ok inst →
      env.read args.input = Except.ok s →
      inst.register s = Except.error e →
      _cli (some rg) env args false =
        ([Event.constructed, Event.loaded args.input],
         CliResult.raised e)) ∧
    (∀ (C : Type) (rg : RegisterGroup) (env : Env C) (args : CliArgs C)
        (c : AlgorithmClass C) (inst : AlgInstance C) (s s2 ret : C)
        (e : String),
      args.registration_algorithm_class = some c →
      c.from_cli_args args.alg_args = Except.ok inst →
      env.read args.input = Except.ok s →
      inst.register s = Except.ok (s2, ret) →
      env.write args.output s2 = Except.error e →
      _cli (some rg) env args false =
        ([Event.constructed, Event.loaded args.input, Event.executed],
         CliResult.raised e)) := by
  refine ⟨?_, ?_, ?_, ?_⟩
  · intro C rg env args c e hsel hcons
    simp [_cli, hsel, hcons]
  · intro C rg env args c inst e hsel hcons hload
    simp [_cli, hsel, hcons, hload]
  · intro C rg env args c inst s e hsel hcons hload hrun
    simp [_cli, hsel, hcons, hload, hrun]
  · intro C rg env args c inst s s2 ret e hsel hcons hload hrun hwrite
    simp [_cli, hsel, hcons, hload, hrun, hwrite]

/-- An algorithm class whose construction from parsed arguments fails. -/
def consFailAlg : AlgorithmClass Nat :=
  { from_cli_args := fun _ => Except.error "invalid arguments" }

/-- Parsed arguments selecting the construction-failing algorithm. -/
def consFailArgs : CliArgs Nat :=
  { registration_algorithm_class := some consFailAlg, input := "/tmp/in",
    output := "/tmp/out", alg_args := [] }

/-- An environment whose reads fail with an I/O error. -/
def readFailEnv : Env Nat :=
  { read := fun _ => Except.error "unreadable",
    write := fun _ _ => Except.ok () }

/-- An algorithm class whose instances fail during execution. -/
def runFailAlg : AlgorithmClass Nat :=
  { from_cli_args := fun _ =>
      Except.ok { register := fun _ => Except.error "algorithm failed" } }

/-- Parsed arguments selecting the execution-failing algorithm. -/
def runFailArgs : CliArgs Nat :=
  { registration_algorithm_class := some runFailAlg, input := "/tmp/in",
    output := "/tmp/out", alg_args := [] }

/-- An environment whose writes fail with an I/O error. -/
def writeFailEnv : Env Nat :=
  { read := fun _ => Except.ok 5,
    write := fun _ _ => Except.error "unwritable" }

/-- Witness for C3: each of the four failing steps, at a concrete
invocation, yields the raised error with the truncated trace. -/
theorem C3_failures_propagate_unmodified_witness :
    _cli (some emptyGroup) natEnv consFailArgs false =
      ([], CliResult.raised "invalid arguments") ∧
    _cli (some emptyGroup) readFailEnv okArgs false =
      ([Event.constructed], CliResult.raised "unreadable") ∧
    _cli (some emptyGroup) natEnv runFailArgs false =
      ([Event.constructed, Event.loaded "/tmp/in"],
       CliResult.raised "algorithm failed") ∧
    _cli (some emptyGroup) writeFailEnv okArgs false =
      ([Event.constructed, Event.loaded "/tmp/in", Event.executed],
       CliResult.raised "unwritable") :=
  ⟨C3_failures_propagate_unmodified.1 Nat emptyGroup natEnv consFailArgs
      consFailAlg "invalid arguments" rfl rfl,
   C3_failures_propagate_unmodified.2.1 Nat emptyGroup readFailEnv okArgs
      okAlg { register := fun s => Except.ok (s + 1, s + 1) }
      "unreadable" rfl rfl rfl,
   C3_failures_propagate_unmodified.2.2.1 Nat emptyGroup natEnv
      runFailArgs runFailAlg
      { register := fun _ => Except.error "algorithm failed" }
      5 "algorithm failed" rfl rfl rfl rfl,
   C3_failures_propagate_unmodified.2.2.2 Nat emptyGroup writeFailEnv
      okArgs okAlg { register := fun s => Except.ok (s + 1, s + 1) }
      5 6 6 "unwritable" rfl rfl rfl rfl rfl⟩

/-- The capability base class itself, with no bases of its own. -/
def rabClass : PyClass :=
  { class_name := "RegistrationAlgorithmBase", bases := [],
    algorithm_name := "", arg_flags := [] }

/-- A direct subclass of the capability base (the fourier-shift
algorithm). -/
def fourierShiftClass : PyClass :=
  { class_name := "FourierShiftRegistration",
    bases := ["RegistrationAlgorithmBase"],
    algorithm_name := "fourier_shift", arg_flags := ["--upsampling"] }

/-- A class deriving from the capability base only indirectly, through
`FourierShiftRegistration`. -/
def refinedShiftClass : PyClass :=
  { class_name := "RefinedFourierShift",
    bases := ["FourierShiftRegistration"],
    algorithm_name := "refined_fourier_shift", arg_flags := [] }

/-- A class table with a direct and an indirect subtype of the base. -/
def exampleClasses : List PyClass :=
  [rabClass, fourierShiftClass, refinedShiftClass]

/-- C4 counterexample: `RefinedFourierShift` satisfies the capability
contract indirectly (it descends from `RegistrationAlgorithmBase`
through `FourierShiftRegistration`), yet `implementing_algorithms`,
which embeds Python's `__subclasses__()` and therefore sees only direct
subclasses, does not include it. -/
theorem C4_counterexample_indirect_subtype_missed :
    Descends exampleClasses "RefinedFourierShift"
      "RegistrationAlgorithmBase" ∧
    refinedShiftClass ∉ implementing_algorithms exampleClasses := by
  constructor
  · exact @Descends.step exampleClasses "RefinedFourierShift"
      "FourierShiftRegistration" "RegistrationAlgorithmBase"
      (by decide)
      (@Descends.base exampleClasses "FourierShiftRegistration"
        "RegistrationAlgorithmBase" (by decide))
  · decide

/-- C4 amended: `implementing_algorithms` enumerates exactly the classes
that list `RegistrationAlgorithmBase` among their direct bases (Python's
`__subclasses__()`); subtypes deriving only indirectly are not
included. -/
theorem C4_amended_enumerates_direct_subclasses
    (classes : List PyClass) (c : PyClass) :
    c ∈ implementing_algorithms classes ↔
      c ∈ classes ∧ registrationAlgorithmBaseName ∈ c.bases := by
  simp [implementing_algorithms]

/-- An algorithm class whose instances leave the passed container
untouched and return a distinct transformed container. -/
def returnOnlyAlg : AlgorithmClass Nat :=
  { from_cli_args := fun _ =>
      Except.ok { register := fun s => Except.ok (s, s + 1) } }

/-- Parsed arguments selecting the return-only algorithm. -/
def returnOnlyArgs : CliArgs Nat :=
  { registration_algorithm_class := some returnOnlyAlg, input := "/tmp/in",
    output := "/tmp/out", alg_args := [] }

/-- C5 counterexample: an algorithm whose run leaves the loaded
container at `5` and returns the transformed container `6`; the
dispatcher persists `5` — the loaded container — and the returned `6` is
never written, because the source discards the return value of
`instance.register(s)` and writes `s`. -/
theorem C5_counterexample_return_value_discarded :
    _cli (some emptyGroup) natEnv returnOnlyArgs false =
      ([Event.constructed, Event.loaded "/tmp/in", Event.executed,
        Event.persisted "/tmp/out" 5], CliResult.done) ∧
    Event.persisted "/tmp/out" (6 : Nat) ∉
      (_cli (some emptyGroup) natEnv returnOnlyArgs false).1 := by
  constructor
  · rfl
  · decide

/-- C5 amended: the container persisted to the output path is the loaded
container in its post-run state (in-place mutation); the value returned
by the algorithm's run is discarded, so a returned transformed container
is persisted only when it coincides with the in-place state. -/
theorem C5_amended_persists_inplace_state {C : Type} (rg : RegisterGroup)
    (env : Env C) (args : CliArgs C) (c : AlgorithmClass C)
    (inst : AlgInstance C) (s s2 ret : C)
    (hsel : args.registration_algorithm_class = some c)
    (hcons : c.from_cli_args args.alg_args = Except.ok inst)
    (hload : env.read args.input = Except.ok s)
    (hrun : inst.register s = Except.ok (s2, ret))
    (hwrite : env.write args.output s2 = Except.ok ()) :
    Event.persisted args.output s2 ∈ (_cli (some rg) env args false).1 ∧
    (Event.persisted args.output ret ∈ (_cli (some rg) env args false).1 →
      ret = s2) := by
  rw [cli_run_success rg env args c inst s s2 ret hsel hcons hload hrun
    hwrite]
  constructor
  · simp
  · intro hmem
    simp only [List.mem_cons, List.mem_singleton] at hmem
    rcases hmem with h | h | h | h | h <;> simp_all

/-- Witness for the amended C5 at a concrete invocation where the
in-place state and the returned value coincide at `6`. -/
theorem C5_amended_persists_inplace_state_witness :
    Event.persisted "/tmp/out" (6 : Nat) ∈
      (_cli (some emptyGroup) natEnv okArgs false).1 ∧
    (Event.persisted "/tmp/out" (6 : Nat) ∈
      (_cli (some emptyGroup) natEnv okArgs false).1 → (6 : Nat) = 6) :=
  C5_amended_persists_inplace_state emptyGroup natEnv okArgs okAlg
    { register := fun s => Except.ok (s + 1, s + 1) } 5 6 6
    rfl rfl rfl rfl rfl

/-- C6: whenever the name-to-subtype map builds successfully its keys
are pairwise distinct, and whenever two discovered subtypes report the
same name the map construction fails loudly instead of keeping one of
them. -/
theorem C6_duplicate_names_fail_loudly :
    (∀ (classes : List PyClass) (m : List (String × PyClass)),
      algorithm_to_class_map classes = Except.ok m →
      (m.map Prod.fst).Nodup) ∧
    (∀ classes : List PyClass,
      ¬ ((implementing_algorithms classes).map
          (fun c => c.algorithm_name)).Nodup →
      ∃ e, algorithm_to_class_map classes = Except.error e) := by
  constructor
  · intro classes m h
    unfold algorithm_to_class_map at h
    split at h
    · cases h
      simpa [List.map_map, Function.comp] using (by assumption)
    · cases h
  · intro classes h
    unfold algorithm_to_class_map
    rw [if_neg h]
    exact ⟨_, rfl⟩

/-- Two distinct classes that report the same algorithm name. -/
def dupClassA : PyClass :=
  { class_name := "BlockShiftA", bases := ["RegistrationAlgorithmBase"],
    algorithm_name := "block_shift", arg_flags := [] }

/-- A second class colliding with `dupClassA` on the algorithm name. -/
def dupClassB : PyClass :=
  { class_name := "BlockShiftB", bases := ["RegistrationAlgorithmBase"],
    algorithm_name := "block_shift", arg_flags := [] }

/-- A class table holding the name collision. -/
def dupClasses : List PyClass := [dupClassA, dupClassB]

/-- Witness for C6: a concrete successful map has distinct keys, and the
concrete colliding table fails map construction. -/
theorem C6_duplicate_names_fail_loudly_witness :
    (([("fourier_shift", fourierShiftClass)] :
        List (String × PyClass)).map Prod.fst).Nodup ∧
    ∃ e, algorithm_to_class_map dupClasses = Except.error e :=
  ⟨C6_duplicate_names_fail_loudly.1 exampleClasses
      [("fourier_shift", fourierShiftClass)] rfl,
   C6_duplicate_names_fail_loudly.2 dupClasses (by decide)⟩

/-- C8: discovery and registry population are idempotent: a second
`ensure_algorithms_setup` leaves the state untouched, so the
name-to-subtype map after invoking twice is identical to the map after
invoking once, with no duplicated entries and no repeated population. -/
theorem C8_discovery_idempotent (classes : List PyClass)
    (st : RegistryState) :
    ensure_algorithms_setup classes (ensure_algorithms_setup classes st) =
      ensure_algorithms_setup classes st ∧
    registry_map (ensure_algorithms_setup classes
        (ensure_algorithms_setup classes st)) =
      registry_map (ensure_algorithms_setup classes st) := by
  have h : ensure_algorithms_setup classes
      (ensure_algorithms_setup classes st) =
      ensure_algorithms_setup classes st := by
    unfold ensure_algorithms_setup
    cases hpop : st.algorithms_populated <;> simp [hpop]
  exact ⟨h, by rw [h]⟩

/-- C10: the dispatcher's help path reads the class attribute
`register_group`, assigned only at the end of `add_to_parser`; invoked
with no selection (or with help forced) before that assignment it fails
with an `AttributeError` instead of printing help and exiting with
status 2, while after the assignment the `AttributeError` outcome is
unreachable on every path. -/
theorem C10_help_path_needs_register_group :
    (∀ (C : Type) (env : Env C) (args : CliArgs C) (print_help : Bool),
      (args.registration_algorithm_class = none ∨ print_help = true) →
      _cli none env args print_help = ([], CliResult.attributeError)) ∧
    (∀ (C : Type) (rg : RegisterGroup) (env : Env C) (args : CliArgs C)
        (print_help : Bool),
      (_cli (some rg) env args print_help).2 ≠
        CliResult.attributeError) := by
  constructor
  · intro C env args print_help h
    rcases h with h | h
    · simp [_cli, h, help_exit]
    · cases hsel : args.registration_algorithm_class with
      | none => simp [_cli, hsel, help_exit]
      | some c => simp [_cli, hsel, h, help_exit]
  · intro C rg env args print_help
    cases hsel : args.registration_algorithm_class with
    | none => simp [_cli, hsel, help_exit]
    | some c =>
      by_cases hph : print_help = true
      · simp [_cli, hsel, hph, help_exit]
      · cases hcons : c.from_cli_args args.alg_args with
        | error e => simp [_cli, hsel, hph, hcons]
        | ok inst =>
          cases hload : env.read args.input with
          | error e => simp [_cli, hsel, hph, hcons, hload]
          | ok s =>
            cases hrun : inst.register s with
            | error e => simp [_cli, hsel, hph, hcons, hload, hrun]
            | ok p =>
              obtain ⟨s2, ret⟩ := p
              cases hwrite : env.write args.output s2 with
              | error e =>
                  simp [_cli, hsel, hph, hcons, hload, hrun, hwrite]
              | ok u =>
                  simp [_cli, hsel, hph, hcons, hload, hrun, hwrite]

/-- Witness for C10: before `add_to_parser` ran, the concrete
no-selection invocation raises the attribute error; after it ran, the
same invocation does not. -/
theorem C10_help_path_needs_register_group_witness :
    _cli none natEnv noSelArgs false = ([], CliResult.attributeError) ∧
    (_cli (some emptyGroup) natEnv noSelArgs false).2 ≠
      CliResult.attributeError :=
  ⟨C10_help_path_needs_register_group.1 Nat natEnv noSelArgs false
      (Or.inl rfl),
   C10_help_path_needs_register_group.2 Nat emptyGroup natEnv noSelArgs
      false⟩

/-- Over a class list with pairwise-distinct algorithm names, filtering
the subcommands built from it by one member's name yields exactly that
member's subcommand. -/
lemma filter_token_of_nodup (algs : List PyClass) (c : PyClass)
    (hn : (algs.map (fun a => a.algorithm_name)).Nodup) (hc : c ∈ algs) :
    (algs.map (fun a =>
        ({ token := a.algorithm_name, registration_algorithm_class := a,
           declared_flags := a.arg_flags } : Subcommand))).filter
      (fun sub => sub.token == c.algorithm_name) =
    [{ token := c.algorithm_name, registration_algorithm_class := c,
       declared_flags := c.arg_flags }] := by
  induction algs with
  | nil => cases hc
  | cons a rest ih =>
    rw [List.map_cons, List.nodup_cons] at hn
    rcases List.mem_cons.mp hc with hceq | hc2
    · subst hceq
      have htail :
          (rest.map (fun b =>
              ({ token := b.algorithm_name,
                 registration_algorithm_class := b,
                 declared_flags := b.arg_flags } : Subcommand))).filter
            (fun sub => sub.token == c.algorithm_name) = [] := by
        refine List.filter_eq_nil_iff.mpr ?_
        intro sub hsub
        obtain ⟨b, hb, rfl⟩ := List.mem_map.mp hsub
        simp only [Bool.not_eq_true, beq_eq_false_iff_ne, ne_eq]
        intro heq
        exact hn.1
          (heq ▸ List.mem_map_of_mem (fun x => x.algorithm_name) hb)
      simp [List.filter_cons, htail]
    · have hne : (a.algorithm_name == c.algorithm_name) = false := by
        simp only [beq_eq_false_iff_ne, ne_eq]
        intro heq
        apply hn.1
        rw [heq]
        exact List.mem_map_of_mem (fun x => x.algorithm_name) hc2
      simp [List.filter_cons, hne, ih hn.2 hc2]

/-- C7: for every pair in a successfully built name-to-subtype map, the
command group built by `add_to_parser` holds exactly one subcommand with
that name as its token, carrying that subtype as the default of the
`registration_algorithm_class` discriminator, and carrying exactly the
flags that subtype declares on its own subparser. -/
theorem C7_one_subcommand_per_algorithm (classes : List PyClass)
    (m : List (String × PyClass))
    (hm : algorithm_to_class_map classes = Except.ok m) :
    ∀ p ∈ m,
      (addToParser m).subcommands.filter
          (fun sub => sub.token == p.1) =
        [{ token := p.1, registration_algorithm_class := p.2,
           declared_flags := p.2.arg_flags }] := by
  unfold algorithm_to_class_map at hm
  split at hm
  case isTrue hn =>
    cases hm
    intro p hp
    obtain ⟨c, hc, rfl⟩ := List.mem_map.mp hp
    have hsubs : (addToParser ((implementing_algorithms classes).map
        (fun c => (c.algorithm_name, c)))).subcommands =
        (implementing_algorithms classes).map (fun a =>
          ({ token := a.algorithm_name,
             registration_algorithm_class := a,
             declared_flags := a.arg_flags } : Subcommand)) := by
      simp [addToParser, List.map_map, Function.comp]
    rw [hsubs]
    exact filter_token_of_nodup _ c hn hc
  case isFalse => cases hm

/-- Witness for C7 at the concrete class table: the `fourier_shift`
entry yields exactly its own subcommand, defaulting to its class and
declaring its flag. -/
theorem C7_one_subcommand_per_algorithm_witness :
    (addToParser
        [("fourier_shift", fourierShiftClass)]).subcommands.filter
      (fun sub => sub.token == "fourier_shift") =
    [{ token := "fourier_shift",
       registration_algorithm_class := fourierShiftClass,
       declared_flags := ["--upsampling"] }] :=
  C7_one_subcommand_per_algorithm exampleClasses
    [("fourier_shift", fourierShiftClass)] rfl
    ("fourier_shift", fourierShiftClass) (by simp)

/-- C9: the command group registers the input and output locations as
required options whose `FsExistsType` converters validate existence at
parse time; an invocation whose input or output option is missing or
names a nonexistent location fails at parsing with an empty event trace
(no algorithm, load, execute or persist code has run), while validated
paths reach the dispatcher unchanged. -/
theorem C9_paths_required_and_parse_time_validated :
    (∀ m : List (String × PyClass),
      (addToParser m).arguments =
        [{ flags := ["-i", "--input"], required := true,
           type_fs_exists := true },
         { flags := ["-o", "--output"], required := true,
           type_fs_exists := true }]) ∧
    (∀ (C : Type) (path_exists : String → Bool)
        (rg : Option RegisterGroup) (env : Env C) (raw : RawArgs)
        (sel : Option (AlgorithmClass C))
        (alg_args : List (String × String)) (print_help : Bool),
      (raw.input = none ∨ raw.output = none ∨
        (∃ i, raw.input = some i ∧ path_exists i = false) ∨
        (∃ o, raw.output = some o ∧ path_exists o = false)) →
      ∃ e, invoke path_exists rg env raw sel alg_args print_help =
        ([], CliResult.parseError e)) ∧
    (∀ (C : Type) (path_exists : String → Bool)
        (rg : Option RegisterGroup) (env : Env C) (raw : RawArgs)
        (sel : Option (AlgorithmClass C))
        (alg_args : List (String × String)) (print_help : Bool)
        (i o : String),
      raw.input = some i → raw.output = some o →
      path_exists i = true → path_exists o = true →
      invoke path_exists rg env raw sel alg_args print_help =
        _cli rg env { registration_algorithm_class := sel, input := i,
                      output := o, alg_args := alg_args } print_help) := by
  refine ⟨fun m => rfl, ?_, ?_⟩
  · intro C path_exists rg env raw sel alg_args print_help h
    cases hi : raw.input with
    | none =>
        exact ⟨"the following arguments are required: -i/--input",
          by simp [invoke, parse_io_arguments, hi]⟩
    | some i =>
      cases hpei : path_exists i with
      | false =>
          exact ⟨i ++ " is not a valid path",
            by simp [invoke, parse_io_arguments, FsExistsType, hi, hpei]⟩
      | true =>
        cases ho : raw.output with
        | none =>
            exact ⟨"the following arguments are required: -o/--output",
              by simp [invoke, parse_io_arguments, FsExistsType, hi,
                hpei, ho]⟩
        | some o =>
          cases hpeo : path_exists o with
          | false =>
              exact ⟨o ++ " is not a valid path",
                by simp [invoke, parse_io_arguments, FsExistsType, hi,
                  hpei, ho, hpeo]⟩
          | true =>
            exfalso
            rcases h with h | h | ⟨i2, hi2, hpe2⟩ | ⟨o2, ho2, hpe2⟩
            · rw [hi] at h; cases h
            · rw [ho] at h; cases h
            · rw [hi] at hi2
              cases hi2
              rw [hpei] at hpe2
              cases hpe2
            · rw [ho] at ho2
              cases ho2
              rw [hpeo] at hpe2
              cases hpe2
  · intro C path_exists rg env raw sel alg_args print_help i o hi ho
      hpei hpeo
    simp [invoke, parse_io_arguments, FsExistsType, hi, ho, hpei, hpeo]

/-- A raw command line with the input option omitted. -/
def missingInputRaw : RawArgs := { input := none, output := some "/tmp/out" }

/-- A raw command line with both path options present. -/
def goodRaw : RawArgs :=
  { input := some "/tmp/in", output := some "/tmp/out" }

/-- Witness for C9: with the input option missing, a concrete invocation
fails at parsing with no events; with both paths present and existing,
it reaches the dispatcher on the validated paths. -/
theorem C9_paths_required_and_parse_time_validated_witness :
    (∃ e, invoke (fun _ => true) (some emptyGroup) natEnv
        missingInputRaw (some okAlg) [] false =
        ([], CliResult.parseError e)) ∧
    invoke (fun _ => true) (some emptyGroup) natEnv goodRaw (some okAlg)
        [] false =
      _cli (some emptyGroup) natEnv
        { registration_algorithm_class := some okAlg, input := "/tmp/in",
          output := "/tmp/out", alg_args := [] } false :=
  ⟨C9_paths_required_and_parse_time_validated.2.1 Nat (fun _ => true)
      (some emptyGroup) natEnv missingInputRaw (some okAlg) [] false
      (Or.inl rfl),
   C9_paths_required_and_parse_time_validated.2.2 Nat (fun _ => true)
      (some emptyGroup) natEnv goodRaw (some okAlg) [] false "/tmp/in"
      "/tmp/out" rfl rfl rfl rfl⟩

end Starfish
